import Mathlib

/-!
Verification of the GridCal UI table-model layer.

This file gives a shallow embedding, in Lean, of the pure data manipulation
performed by the Qt model/view adapters of the GridCal UI sources:

* `GridCalUi/GuiFunctions.py` — `PandasModel`, `ObjectsModel`, `ObjectHistory`,
  `ProfilesModel`, `MeasurementsModel`;
* `GridCalUi/Session/results_model.py` — `fast_data_to_text`, `ResultsModel`;
* `GridCalUi/Session/file_handler.py` — `FileOpenThread`, `FileSaveThread`;
* `GridCalUi/TowerBuilder/table_models.py` — `WiresTable`, `TowerModel`.

Python objects become Lean structures, in-place mutation becomes explicit state
passing, Python exceptions become `Option`, and numeric cell values are
modelled over `ℚ` (the adapters only move, copy, compare-to-zero and store
these values; no floating-point rounding is involved in any statement proved
here).  External engine calls (file open/save, `ResultsTable.get_data`,
the `Tower` catalogue object, Python's string formatting and `float` parsing)
are parameters of the corresponding operations.
-/

namespace GridCalVer

/-- Qt item-data roles, restricted to the ones the embedded code inspects. -/
inductive QtRole where
  | display
  | background
  | other
deriving DecidableEq, Repr

/-! ## ObjectHistory (GuiFunctions.py, lines 798-858)

The undo/redo record: the stored `data` dictionary maps a column index to a
snapshot of that column's profile array; it is modelled as an association
list.  Python `list.append` appends at the end, `list.pop()` removes the last
element and `list.pop(0)` the first, so the Lean list is kept in the same
order as the Python one (index 0 = oldest entry). -/

/-- A profile array: the per-time-step values of one element's magnitude. -/
abbrev Profile := List ℚ

/-- The `data` dict of one history entry: column index -> profile snapshot. -/
abbrev HistData := List (Nat × Profile)

/-- One undo/redo stack entry: `(action_name, data)`. -/
abbrev HistEntry := String × HistData

/-- State of `ObjectHistory`. -/
structure ObjectHistory where
  max_undo_states : Nat
  position : Nat
  undo_stack : List HistEntry
  redo_stack : List HistEntry
deriving DecidableEq, Repr

/-- `ObjectHistory.__init__(max_undo_states)`. -/
def ObjectHistory.init (max_undo_states : Nat) : ObjectHistory :=
  { max_undo_states := max_undo_states
    position := 0
    undo_stack := []
    redo_stack := [] }

/-- `ObjectHistory.add_state(action_name, data)`: evict the oldest entry when
`len(undo_stack) > max_undo_states + 1`, then append the new entry. -/
def ObjectHistory.add_state (h : ObjectHistory) (action_name : String)
    (data : HistData) : ObjectHistory :=
  let stack0 := if h.undo_stack.length > h.max_undo_states + 1
                then h.undo_stack.tail else h.undo_stack
  let stack1 := stack0 ++ [(action_name, data)]
  { h with undo_stack := stack1, position := stack1.length - 1 }

/-- `ObjectHistory.undo()`: pop the newest undo entry, push it on the redo
stack and return it.  `none` models the `IndexError` of `pop` on an empty
list. -/
def ObjectHistory.undo (h : ObjectHistory) : Option (HistEntry × ObjectHistory) :=
  match h.undo_stack.getLast? with
  | none => none
  | some val =>
      some (val, { h with undo_stack := h.undo_stack.dropLast
                          redo_stack := h.redo_stack ++ [val] })

/-- `ObjectHistory.redo()`. -/
def ObjectHistory.redo (h : ObjectHistory) : Option (HistEntry × ObjectHistory) :=
  match h.redo_stack.getLast? with
  | none => none
  | some val =>
      some (val, { h with redo_stack := h.redo_stack.dropLast
                          undo_stack := h.undo_stack ++ [val] })

/-- `ObjectHistory.can_undo()`. -/
def ObjectHistory.can_undo (h : ObjectHistory) : Bool :=
  h.undo_stack.length > 0

/-- `ObjectHistory.can_redo()`. -/
def ObjectHistory.can_redo (h : ObjectHistory) : Bool :=
  h.redo_stack.length > 0

/-! ## ProfilesModel (GuiFunctions.py, lines 861-1158)

Each element of the model owns, for the displayed magnitude, one profile
array (`getattr(self.elements[c], profile_property)`); the model state keeps
exactly those arrays.  The indirection through `properties_with_profile` is
collapsed into the array itself. -/

/-- State of `ProfilesModel`: the profile array of each element (column),
the non-editable column indices and the undo/redo history. -/
structure ProfilesModel where
  profiles : List Profile
  non_editable_indices : List Nat
  history : ObjectHistory
deriving DecidableEq, Repr

/-- `ProfilesModel.columnCount()` = number of elements. -/
def ProfilesModel.columnCount (m : ProfilesModel) : Nat :=
  m.profiles.length

/-- `ProfilesModel.add_state(columns, action_name)`: snapshot (copy) the
current profile array of every listed column and push the snapshot dict. -/
def ProfilesModel.add_state (m : ProfilesModel) (columns : List Nat)
    (action_name : String) : ProfilesModel :=
  let data : HistData := columns.map (fun col => (col, m.profiles.getD col []))
  { m with history := m.history.add_state action_name data }

/-- `ProfilesModel.__init__`: store the arrays, create the history and push
the initial state for all columns (`columns=range(self.columnCount())`,
`action_name='initial'`). -/
def ProfilesModel.init (profiles : List Profile) (max_undo_states : Nat) :
    ProfilesModel :=
  let m : ProfilesModel :=
    { profiles := profiles
      non_editable_indices := []
      history := ObjectHistory.init max_undo_states }
  m.add_state (List.range m.columnCount) "initial"

/-- `ProfilesModel.setData(index, value)`: if the column is editable, write
`value` into the profile array at the indexed row, then push an undo state
for that column (note: the snapshot is taken after the write). -/
def ProfilesModel.setData (m : ProfilesModel) (r c : Nat) (value : ℚ) :
    ProfilesModel :=
  if c ∉ m.non_editable_indices then
    let m' := { m with profiles := m.profiles.set c ((m.profiles.getD c []).set r value) }
    m'.add_state [c] ""
  else
    m

/-- `ProfilesModel.restore(data)`: write every stored column snapshot back
into the model. -/
def ProfilesModel.restore (m : ProfilesModel) (data : HistData) : ProfilesModel :=
  { m with profiles := data.foldl (fun ps cd => ps.set cd.1 cd.2) m.profiles }

/-- `ProfilesModel.undo()`: when the history allows it, pop the newest undo
entry and restore its data. -/
def ProfilesModel.undo (m : ProfilesModel) : ProfilesModel :=
  if m.history.can_undo then
    match m.history.undo with
    | some (entry, h') => ({ m with history := h' }).restore entry.2
    | none => m
  else
    m

/-- `ProfilesModel.redo()`. -/
def ProfilesModel.redo (m : ProfilesModel) : ProfilesModel :=
  if m.history.can_redo then
    match m.history.redo with
    | some (entry, h') => ({ m with history := h' }).restore entry.2
    | none => m
  else
    m

/-! ## Cell values and clipboard export (results_model.py, GuiFunctions.py)

`fast_data_to_text` (results_model.py, lines 25-34) walks the numeric result
matrix row by row, accumulating tab-separated text; `str()` applied to an
index value is collapsed into the `String` entries of `index`, and `str(x)`
on a cell is `pyStr`. -/

/-- Model of Python `str` on a numeric cell value. -/
def pyStr (q : ℚ) : String := toString q

/-- `fast_data_to_text(data, columns, index)`: one header line, then for each
index entry, the data row is appended only when `data[t, :].sum() != 0.0`. -/
def fast_data_to_text (data : List (List ℚ)) (columns : List String)
    (index : List String) : String :=
  (index.zip data).foldl
    (fun txt ir =>
      if ir.2.sum ≠ 0 then
        txt ++ (ir.1 ++ "\t" ++ String.intercalate "\t" (ir.2.map pyStr) ++ "\n")
      else txt)
    ("\t" ++ String.intercalate "\t" columns ++ "\n")

/-- A Python cell value as stored in the displayed matrices: a string, a
complex number, or a real number. -/
inductive PyValue where
  | str (s : String)
  | cplx (re im : ℚ)
  | num (q : ℚ)
deriving DecidableEq, Repr

/-- The externally produced `ResultsTable` object (engine class), restricted
to the fields the UI adapter reads: the cell matrix, the column/index labels,
the display format string and the cached shape. -/
structure ResultsTable where
  data_c : List (List PyValue)
  cols_c : List String
  index_c : List String
  format_string : String
  r : Nat
  c : Nat
deriving Repr

/-- `ResultsModel.rowCount()` = `table.r`. -/
def ResultsModel.rowCount (t : ResultsTable) : Nat := t.r

/-- `ResultsModel.columnCount()` = `table.c`. -/
def ResultsModel.columnCount (t : ResultsTable) : Nat := t.c

/-- `ResultsModel.copy_to_clipboard()`: when the table has at least one
column, produce `fast_data_to_text` over the triple `(index, columns, data)`
returned by the external `table.get_data()` (passed here as the `gd`
argument); with no columns, nothing is written (`none`). -/
def ResultsModel.copy_to_clipboard (t : ResultsTable)
    (gd : List String × List String × List (List ℚ)) : Option String :=
  if t.cols_c.length > 0 then
    some (fast_data_to_text gd.2.2 gd.2.1 gd.1)
  else
    none

/-- Modelled from the amended claim: exactly one header row (a tab, then the
column names joined by tabs), followed by one row for each index entry whose
cell values do not sum to zero, each retained row being the index value and
the row's cell values joined by tabs; rows whose values sum to zero are
omitted. -/
def clipboard_text_amended (data : List (List ℚ)) (columns : List String)
    (index : List String) : String :=
  ("\t" ++ String.intercalate "\t" columns ++ "\n") ++
  String.join (((index.zip data).filter (fun ir => ir.2.sum ≠ 0)).map
    (fun ir => ir.1 ++ "\t" ++ String.intercalate "\t" (ir.2.map pyStr) ++ "\n"))

/-! ## Cell rendering at display role

`PandasModel.data` (GuiFunctions.py, lines 327-349) and `ResultsModel.data`
(results_model.py, lines 98-128) dispatch on the runtime type of the cell
value.  Python's `val.__format__(format_string)` is external library
behaviour and enters as the function arguments `fmt` (real values) and
`fmtc` (complex values). -/

/-- Shared rendering of one cell value at display role: strings pass through,
a complex value with a non-zero part and a non-zero real value go through the
format string, and exact zeros become the literal `'0'`. -/
def renderVal (format_string : String) (fmt : String → ℚ → String)
    (fmtc : String → ℚ → ℚ → String) : PyValue → String
  | PyValue.str s => s
  | PyValue.cplx re im => if re ≠ 0 ∨ im ≠ 0 then fmtc format_string re im else "0"
  | PyValue.num q => if q ≠ 0 then fmt format_string q else "0"

/-- A pandas data frame, reduced to what `PandasModel.__init__` reads:
`data.values` (the cell matrix, whose shape is
`(len(data.index), len(data.columns))`), `data.columns` and `data.index`. -/
structure DataFrame where
  values : List (List PyValue)
  columns : List String
  index : List String

/-- State of `PandasModel`. -/
structure PandasModel where
  data_c : List (List PyValue)
  cols_c : List String
  index_c : List String
  editable : Bool
  editable_min_idx : Int
  r : Nat
  c : Nat
  format_string : String

/-- `PandasModel.__init__(data, editable, editable_min_idx, decimals)`:
`self.r, self.c = self.data_c.shape`, i.e. the row and column counts of the
data frame; `format_string = '.' + str(decimals) + 'f'`. -/
def PandasModel.init (df : DataFrame) (editable : Bool) (editable_min_idx : Int)
    (decimals : Nat) : PandasModel :=
  { data_c := df.values
    cols_c := df.columns
    index_c := df.index
    editable := editable
    editable_min_idx := editable_min_idx
    r := df.index.length
    c := df.columns.length
    format_string := "." ++ toString decimals ++ "f" }

/-- `PandasModel.rowCount()`. -/
def PandasModel.rowCount (m : PandasModel) : Nat := m.r

/-- `PandasModel.columnCount()`. -/
def PandasModel.columnCount (m : PandasModel) : Nat := m.c

/-- numpy `.sum()` over a row of a string-dtype array (the result of
`astype(str)`): numpy defines no add-reduction for flexible (string) dtypes,
so the call raises `TypeError: cannot perform reduce with flexible type`
whatever the row holds; `none` models the raised exception. -/
def numpy_str_sum (_row : List String) : Option ℚ := none

/-- The row loop of `PandasModel.copy_to_clipboard` (GuiFunctions.py, lines
469-471) over the `astype(str)` matrix: each iteration first evaluates the
guard `data[t, :].sum() != 0.0` on a string-dtype row — whose raised
exception (`none`) aborts the whole export — and would append the row text
when the guard passed. -/
def pandas_clipboard_rows : List (String × List String) → String → Option String
  | [], txt => some txt
  | ir :: rest, txt =>
      match numpy_str_sum ir.2 with
      | none => none
      | some s =>
          if s ≠ 0 then
            pandas_clipboard_rows rest
              (txt ++ (ir.1 ++ "\t" ++ String.intercalate "\t" ir.2 ++ "\n"))
          else
            pandas_clipboard_rows rest txt

/-- `PandasModel.copy_to_clipboard(mode)` (GuiFunctions.py, lines 451-480):
with no columns nothing happens (`some none`); otherwise the
`(index, columns, data)` triple of `get_data` (the `gd` argument) has its
data matrix converted to strings by `data.astype(str)`, the header line is
built, and the row loop runs.  The outer `none` models the `TypeError`
raised by the loop's string-dtype sum; `some (some txt)` is text reaching
the clipboard. -/
def PandasModel.copy_to_clipboard (m : PandasModel)
    (gd : List String × List String × List (List ℚ)) : Option (Option String) :=
  if m.cols_c.length > 0 then
    let dataStr := gd.2.2.map (fun row => row.map pyStr)
    (pandas_clipboard_rows (gd.1.zip dataStr)
        ("\t" ++ String.intercalate "\t" gd.2.1 ++ "\n")).map some
  else
    some none

/-- `PandasModel.data(index, role)`: at a valid index and display role,
render the addressed cell; anything else yields `None`.  An out-of-range
index (impossible for a valid Qt index of this model) yields `none` through
the `Option` binds. -/
def PandasModel.dataAt (m : PandasModel) (fmt : String → ℚ → String)
    (fmtc : String → ℚ → ℚ → String) (row col : Nat) (valid : Bool)
    (role : QtRole) : Option String :=
  if valid ∧ role = QtRole.display then
    (m.data_c[row]?.bind (fun rw => rw[col]?)).map (renderVal m.format_string fmt fmtc)
  else
    none

/-- `ResultsModel.data(index, role)`: same dispatch as `PandasModel.data`,
with an extra background-role branch that returns `None`. -/
def ResultsModel.dataAt (t : ResultsTable) (fmt : String → ℚ → String)
    (fmtc : String → ℚ → ℚ → String) (row col : Nat) (valid : Bool)
    (role : QtRole) : Option String :=
  if valid then
    match t.data_c[row]?.bind (fun rw => rw[col]?) with
    | none => none
    | some v =>
        if role = QtRole.display then
          some (renderVal t.format_string fmt fmtc v)
        else
          none
  else
    none

/-! ## ObjectsModel (GuiFunctions.py, lines 483-783)

A displayed object is its attribute dictionary, modelled as an association
list; `getattr` is lookup, `setattr` replaces the binding (adding it when
absent, as Python does). -/

/-- A Python object as an attribute dictionary. -/
abbrev AssocObj (V : Type) := List (String × V)

/-- Model of `getattr(obj, attr)`; `none` models `AttributeError`. -/
def getattrOpt {V : Type} : AssocObj V → String → Option V
  | [], _ => none
  | p :: t, a => if p.1 = a then some p.2 else getattrOpt t a

/-- Model of `setattr(obj, attr, v)`: replace the attribute's binding,
adding it when absent. -/
def setattrObj {V : Type} : AssocObj V → String → V → AssocObj V
  | [], a, v => [(a, v)]
  | p :: t, a, v => if p.1 = a then (a, v) :: t else p :: setattrObj t a v

/-- The attribute types `ObjectsModel.setData` dispatches on: the
`BranchType` special case versus everything else. -/
inductive AttrType where
  | branchType
  | other
deriving DecidableEq, Repr

/-- State of `ObjectsModel`.  `branch_conv` stands for the external
`BranchType(value)` enum coercion applied in the `BranchType` branch of
`setData`. -/
structure ObjectsModel (V : Type) where
  attributes : List String
  attribute_types : List AttrType
  objects : List (AssocObj V)
  editable : Bool
  non_editable_attributes : List String
  check_unique : List String
  transposed : Bool
  r : Nat
  c : Nat
  branch_conv : V → V

/-- `ObjectsModel.__init__`: `r = len(objects)`, `c = len(attributes)`. -/
def ObjectsModel.init {V : Type} (attributes : List String)
    (attribute_types : List AttrType) (objects : List (AssocObj V))
    (editable : Bool) (non_editable_attributes : List String)
    (transposed : Bool) (check_unique : List String)
    (branch_conv : V → V) : ObjectsModel V :=
  { attributes := attributes
    attribute_types := attribute_types
    objects := objects
    editable := editable
    non_editable_attributes := non_editable_attributes
    check_unique := check_unique
    transposed := transposed
    r := objects.length
    c := attributes.length
    branch_conv := branch_conv }

/-- `ObjectsModel.rowCount()`: `c` when transposed, else `r`. -/
def ObjectsModel.rowCount {V : Type} (m : ObjectsModel V) : Nat :=
  if m.transposed then m.c else m.r

/-- `ObjectsModel.columnCount()`: `r` when transposed, else `c`. -/
def ObjectsModel.columnCount {V : Type} (m : ObjectsModel V) : Nat :=
  if m.transposed then m.r else m.c

/-- `ObjectsModel.attr_taken(attr, val)`: is the value already held by some
object of the collection? -/
def ObjectsModel.attr_taken {V : Type} [DecidableEq V] (m : ObjectsModel V)
    (attr : String) (val : V) : Bool :=
  m.objects.any (fun o => decide (getattrOpt o attr = some val))

/-- `ObjectsModel.setData(index, value)`: resolve the object/attribute pair
(swapped when transposed), reject the edit when the attribute is under a
uniqueness check and the value is taken, skip it when the attribute is not
editable, otherwise write the value (through the `BranchType` coercion when
the attribute type asks for it). -/
def ObjectsModel.setData {V : Type} [DecidableEq V] (m : ObjectsModel V)
    (row col : Nat) (value : V) : ObjectsModel V :=
  let obj_idx := if m.transposed then col else row
  let attr_idx := if m.transposed then row else col
  let attr := m.attributes.getD attr_idx ""
  let tpe := m.attribute_types.getD attr_idx AttrType.other
  let taken := if attr ∈ m.check_unique then m.attr_taken attr value else false
  if taken then
    m
  else if attr ∈ m.non_editable_attributes then
    m
  else
    let newv := if tpe = AttrType.branchType then m.branch_conv value else value
    { m with objects :=
        m.objects.set obj_idx (setattrObj (m.objects.getD obj_idx []) attr newv) }

/-! ## WiresTable (TowerBuilder/table_models.py, lines 32-125) -/

/-- A wire from the catalogue: the three attributes the table exposes. -/
structure Wire where
  name : String
  r : ℚ
  gmr : ℚ
deriving DecidableEq, Repr

/-- State of `WiresTable`. -/
structure WiresTable where
  wires : List Wire
deriving DecidableEq, Repr

/-- `self.header = ['Name', 'R (Ohm/km)', 'GMR (m)']`. -/
def WiresTable.header : List String := ["Name", "R (Ohm/km)", "GMR (m)"]

/-- `self.index_prop = {0: 'name', 1: 'r', 2: 'gmr'}`. -/
def WiresTable.index_prop : Nat → Option String
  | 0 => some "name"
  | 1 => some "r"
  | 2 => some "gmr"
  | _ => none

/-- `self.editable = [True, True, True]`. -/
def WiresTable.editable : List Bool := [true, true, true]

/-- `WiresTable.rowCount()`. -/
def WiresTable.rowCount (t : WiresTable) : Nat := t.wires.length

/-- `WiresTable.columnCount()`. -/
def WiresTable.columnCount (_t : WiresTable) : Nat := WiresTable.header.length

/-- `WiresTable.is_used(name)`. -/
def WiresTable.is_used (t : WiresTable) (name : String) : Bool :=
  t.wires.any (fun w => w.name = name)

/-- `WiresTable.setData(index, value)`: on an editable column, convert and
write the value into the addressed wire's attribute; a uniqueness check via
`is_used` happens only when the attribute is the literal `'tower_name'`,
which no column of `index_prop` maps to.  `floatConv` stands for Python's
`float` parsing (the column-1/2 converter); `none` models the raised
exception of a failed conversion or an out-of-range index. -/
def WiresTable.setData (t : WiresTable) (row col : Nat) (value : String)
    (floatConv : String → Option ℚ) : Option WiresTable :=
  if WiresTable.editable.getD col false then
    match t.wires[row]?, WiresTable.index_prop col with
    | some w, some attr =>
        let write : Option WiresTable :=
          if attr = "name" then
            some { t with wires := t.wires.set row { w with name := value } }
          else if attr = "r" then
            (floatConv value).map (fun q => { t with wires := t.wires.set row { w with r := q } })
          else if attr = "gmr" then
            (floatConv value).map (fun q => { t with wires := t.wires.set row { w with gmr := q } })
          else
            none
        if attr = "tower_name" then
          if t.is_used value then some t else write
        else
          write
    | _, _ => none
  else
    some t

/-! ## TowerModel (TowerBuilder/table_models.py, lines 230-374)

The `Tower` object is engine code; its `header`, `index_prop`, `converter`
and `editable_wire` dictionaries and its wire list are fields of the model
below, with the converters abstracted as `String → Option ℚ` (the editable
tower columns are numeric; a `none` result models a raised conversion
error, caught by `setData`'s `try/except`). -/

/-- A wire entry of the tower, as an attribute-to-number map. -/
structure TWire where
  attrs : String → ℚ

/-- The external `Tower` object, restricted to the fields `TowerModel`
reads. -/
structure Tower where
  header : List String
  index_prop : Nat → Option String
  converter : Nat → String → Option ℚ
  editable_wire : List Bool
  wires_in_tower : List TWire

/-- `TowerModel.rowCount()`. -/
def TowerModel.rowCount (tw : Tower) : Nat := tw.wires_in_tower.length

/-- `TowerModel.columnCount()`. -/
def TowerModel.columnCount (tw : Tower) : Nat := tw.header.length

/-- `TowerModel.setData(index, value)`: on an editable column, convert the
value (a failed conversion is caught and replaced by `0`), clamp a converted
`'phase'` value outside `[0, 3]` to `0`, and store the result in the
addressed wire's attribute.  `none` models the `IndexError`/`KeyError` of an
out-of-range index. -/
def TowerModel.setData (tw : Tower) (row col : Nat) (value : String) :
    Option Tower :=
  if tw.editable_wire.getD col false then
    match tw.wires_in_tower[row]?, tw.index_prop col with
    | some w, some attr =>
        let val := (tw.converter col value).getD 0
        let val := if attr = "phase" ∧ (val < 0 ∨ val > 3) then 0 else val
        some { tw with wires_in_tower :=
          tw.wires_in_tower.set row ⟨fun a => if a = attr then val else w.attrs a⟩ }
    | _, _ => none
  else
    some tw

/-- A concrete tower used as test input: one wire whose stored phase is `7`
(out of range), a numeric column 1 mapped to `xpos` and column 3 mapped to
`phase`, name column not editable. -/
def towerFixture : Tower :=
  { header := ["Wire", "X (m)", "Y (m)", "phase"]
    index_prop := fun c =>
      if c = 1 then some "xpos"
      else if c = 2 then some "ypos"
      else if c = 3 then some "phase" else none
    converter := fun _ s => if s = "1.0" then some 1 else none
    editable_wire := [false, true, true, true]
    wires_in_tower := [⟨fun a => if a = "phase" then 7 else 0⟩] }

/-- The wire stored at a row of the tower (zero wire when out of range). -/
def towerWireAt (tw : Tower) (row : Nat) : TWire :=
  tw.wires_in_tower.getD row ⟨fun _ => 0⟩

/-- Reading off the phase of the first wire of a tower. -/
def towerPhase0 (tw : Tower) : ℚ :=
  (towerWireAt tw 0).attrs "phase"

/-! ## MeasurementsModel (GuiFunctions.py, lines 1180-1196)

The constructor stores only `self.circuit`; the `items` attribute that
`rowCount` and `data` read is never assigned anywhere in the class, so those
reads raise `AttributeError`.  The never-assigned attribute is modelled as an
`Option` field that the constructor sets to `none`; reading it through
`none` is the exception. -/

/-- State of `MeasurementsModel` over an abstract circuit type `C` and item
type `M`. -/
structure MeasurementsModel (C M : Type) where
  circuit : C
  items : Option (List M)

/-- `MeasurementsModel.__init__(circuit)`: only `circuit` is assigned. -/
def MeasurementsModel.init {C M : Type} (circuit : C) : MeasurementsModel C M :=
  { circuit := circuit, items := none }

/-- `MeasurementsModel.rowCount()` = `len(self.items)`; `none` models the
`AttributeError` on the unset attribute. -/
def MeasurementsModel.rowCount {C M : Type} (m : MeasurementsModel C M) :
    Option Nat :=
  m.items.map List.length

/-- `MeasurementsModel.data(index, role)` = `self.items[index.row()].value[0]`
at a valid index and display role (`render` stands for the `.value[0]`
projection); the outer `none` models the `AttributeError`/`IndexError`
exceptions, `some none` the regular `None` return. -/
def MeasurementsModel.data {C M : Type} (m : MeasurementsModel C M) (row : Nat)
    (valid : Bool) (role : QtRole) (render : M → String) :
    Option (Option String) :=
  if valid ∧ role = QtRole.display then
    match m.items with
    | none => none
    | some items => (items[row]?).map (fun it => some (render it))
  else
    some none

/-! ## File open/save worker threads (Session/file_handler.py)

`run` is modelled as a function from the thread state (and the external
engine's behaviour) to the final state plus the list of emitted Qt signals,
in emission order.  A `ProgressEvent` is carried by the `progress_text` /
`progress_signal` signals; the completion signal `done_signal` is a separate
constructor, so engine callbacks can never emit it. -/

/-- A progress signal payload: `progress_text.emit(str)` or
`progress_signal.emit(float)`. -/
inductive ProgressEvent where
  | text (s : String)
  | progress (x : ℚ)
deriving DecidableEq, Repr

/-- An emitted Qt signal of the worker threads. -/
inductive Event where
  | progress (e : ProgressEvent)
  | done
deriving DecidableEq, Repr

/-- The engine's `Logger` object: an accumulated list of entries. -/
abbrev Logger := List String

/-- `file_name` may be a single path or a list of paths
(`isinstance(self.file_name, list)`). -/
abbrev FileName := String ⊕ List String

/-- The tail component of `os.path.split` (the name after the last `/`). -/
def os_path_split_tail (s : String) : String :=
  String.mk ((s.data.reverse.takeWhile (fun ch => ch ≠ '/')).reverse)

/-- The `fname` computed at the start of `FileOpenThread.run`: the basename
of the path, or of the first path when a list was given.  `none` models the
`IndexError` on an empty list. -/
def loading_fname : FileName → Option String
  | Sum.inl s => some (os_path_split_tail s)
  | Sum.inr (f :: _) => some (os_path_split_tail f)
  | Sum.inr [] => none

/-- State of `FileOpenThread` over an abstract circuit type `C`. -/
structure FileOpenThread (C : Type) where
  file_name : FileName
  valid : Bool
  logger : Logger
  circuit : Option C
  cancel_flag : Bool

/-- `FileOpenThread.__init__(file_name)`. -/
def FileOpenThread.init {C : Type} (file_name : FileName) : FileOpenThread C :=
  { file_name := file_name
    valid := false
    logger := []
    circuit := none
    cancel_flag := false }

/-- `FileOpenThread.cancel()`: sets `self.__cancel__ = True` and nothing
else. -/
def FileOpenThread.cancel {C : Type} (t : FileOpenThread C) : FileOpenThread C :=
  { t with cancel_flag := true }

/-- Behaviour of the external `FileOpen(file_name).open(...)` call: the
progress events it pushes through the callbacks, the circuit it returns and
the logger it accumulates. -/
structure EngineOpen (C : Type) where
  events : List ProgressEvent
  circuit : C
  logger : Logger

/-- `FileOpenThread.run()`: emit `'Loading <fname>...'`, reset the logger,
run the engine open (its callback events follow), append the engine logger,
set `valid`, emit `'Done!'` and finally emit the single `done_signal`.
`none` models the `IndexError` when `file_name` is an empty list. -/
def FileOpenThread.run {C : Type} (t : FileOpenThread C) (engine : EngineOpen C) :
    Option (FileOpenThread C × List Event) :=
  match loading_fname t.file_name with
  | none => none
  | some fname =>
      some ({ t with circuit := some engine.circuit
                     logger := engine.logger
                     valid := true },
            Event.progress (ProgressEvent.text ("Loading " ++ fname ++ "..."))
              :: engine.events.map Event.progress
              ++ [Event.progress (ProgressEvent.text "Done!"), Event.done])

/-- State of `FileSaveThread` over an abstract circuit type `C`. -/
structure FileSaveThread (C : Type) where
  circuit : C
  file_name : String
  valid : Bool
  logger : Logger
  error_msg : String
  cancel_flag : Bool

/-- `FileSaveThread.__init__(circuit, file_name, ...)`. -/
def FileSaveThread.init {C : Type} (circuit : C) (file_name : String) :
    FileSaveThread C :=
  { circuit := circuit
    file_name := file_name
    valid := false
    logger := []
    error_msg := ""
    cancel_flag := false }

/-- `FileSaveThread.cancel()`: sets `self.__cancel__ = True` and nothing
else. -/
def FileSaveThread.cancel {C : Type} (t : FileSaveThread C) : FileSaveThread C :=
  { t with cancel_flag := true }

/-- Behaviour of the external `FileSave(...).save()` call: its callback
events and the logger it returns. -/
structure EngineSave where
  events : List ProgressEvent
  logger : Logger

/-- `FileSaveThread.run()`: emit `'Flushing <fname> into <fname>...'`, run
the engine save (its callback events follow), store the returned logger, set
`valid`, emit `'Done!'` and finally the single `done_signal`. -/
def FileSaveThread.run {C : Type} (t : FileSaveThread C) (engine : EngineSave) :
    FileSaveThread C × List Event :=
  let fname := os_path_split_tail t.file_name
  ({ t with logger := engine.logger, valid := true },
   Event.progress (ProgressEvent.text ("Flushing " ++ fname ++ " into " ++ fname ++ "..."))
     :: engine.events.map Event.progress
     ++ [Event.progress (ProgressEvent.text "Done!"), Event.done])

/-- The observable outcome of `FileOpenThread.run`: emitted events and final
circuit, logger and `valid` flag. -/
def openOutcome {C : Type} (p : FileOpenThread C × List Event) :
    List Event × Option C × Logger × Bool :=
  (p.2, p.1.circuit, p.1.logger, p.1.valid)

/-- The observable outcome of `FileSaveThread.run`: emitted events and final
logger and `valid` flag. -/
def saveOutcome {C : Type} (p : FileSaveThread C × List Event) :
    List Event × Logger × Bool :=
  (p.2, p.1.logger, p.1.valid)

/-! ## Concrete fixtures used as test inputs -/

/-- A concrete real-value formatter standing for `__format__`. -/
def fmtFixture : String → ℚ → String := fun _ q => pyStr q

/-- A concrete complex-value formatter standing for `__format__`. -/
def fmtcFixture : String → ℚ → ℚ → String :=
  fun _ re im => pyStr re ++ "+" ++ pyStr im ++ "j"

/-- A concrete 2x2 pandas-backed model: a zero cell at (0,0), a non-zero
cell at (0,1), a zero complex cell at (1,0) and a non-zero complex cell at
(1,1). -/
def pandasFixture : PandasModel :=
  { data_c := [[PyValue.num 0, PyValue.num 2], [PyValue.cplx 0 0, PyValue.cplx 3 0]]
    cols_c := ["a", "b"]
    index_c := ["x", "y"]
    editable := false
    editable_min_idx := -1
    r := 2
    c := 2
    format_string := ".6f" }

/-- A concrete results table with the same cell layout as `pandasFixture`. -/
def resultsFixture : ResultsTable :=
  { data_c := [[PyValue.num 0, PyValue.num 2], [PyValue.cplx 0 0, PyValue.cplx 3 0]]
    cols_c := ["a", "b"]
    index_c := ["x", "y"]
    format_string := ".6f"
    r := 2
    c := 2 }

/-- A float converter that always fails (never consulted for name edits). -/
def noFloat : String → Option ℚ := fun _ => none

/-- A concrete objects model: two objects with names `a` and `b`, one `name`
attribute under a uniqueness check. -/
def objFixture : ObjectsModel String :=
  ObjectsModel.init ["name"] [AttrType.other]
    [[("name", "a")], [("name", "b")]] true [] false ["name"] id

/-- A concrete wires table with wires named `a` and `b`. -/
def wiresFixture : WiresTable :=
  WiresTable.mk [Wire.mk "a" 1 1, Wire.mk "b" 2 2]

/-! # Theorems -/

/-! ## Helper lemmas about `ObjectHistory.add_state` -/

/-- `add_state` never changes the configured maximum. -/
theorem ObjectHistory.add_state_max_eq (h : ObjectHistory) (a : String) (d : HistData) :
    (h.add_state a d).max_undo_states = h.max_undo_states := rfl

/-- `add_state` preserves the bound `length ≤ max_undo_states + 2`. -/
theorem ObjectHistory.add_state_length_le (h : ObjectHistory) (a : String) (d : HistData)
    (hb : h.undo_stack.length ≤ h.max_undo_states + 2) :
    (h.add_state a d).undo_stack.length ≤ h.max_undo_states + 2 := by
  unfold ObjectHistory.add_state
  by_cases hc : h.undo_stack.length > h.max_undo_states + 1
  · simp only [hc, if_true, List.length_append, List.length_tail, List.length_cons,
      List.length_nil]
    omega
  · simp only [hc, if_false, List.length_append, List.length_cons, List.length_nil]
    omega

/-- Any sequence of `add_state` calls keeps the bound `length ≤ max + 2`. -/
theorem ObjectHistory.foldl_add_state_length_le (calls : List (String × HistData)) :
    ∀ h : ObjectHistory, h.undo_stack.length ≤ h.max_undo_states + 2 →
      (calls.foldl (fun acc c => acc.add_state c.1 c.2) h).undo_stack.length ≤
        (calls.foldl (fun acc c => acc.add_state c.1 c.2) h).max_undo_states + 2 := by
  induction calls with
  | nil => intro h hb; exact hb
  | cons c cs ih =>
      intro h hb
      simpa using ih (h.add_state c.1 c.2) (ObjectHistory.add_state_length_le h c.1 c.2 hb)

/-- Any sequence of `add_state` calls preserves the configured maximum. -/
theorem ObjectHistory.foldl_add_state_max_eq (calls : List (String × HistData)) :
    ∀ h : ObjectHistory,
      (calls.foldl (fun acc c => acc.add_state c.1 c.2) h).max_undo_states =
        h.max_undo_states := by
  induction calls with
  | nil => intro h; rfl
  | cons c cs ih => intro h; simpa using ih (h.add_state c.1 c.2)

/-! ## Claims C1 and C2 -/

/-- C1 (code bug): after `ProfilesModel.setData` edits a profile cell, the
snapshot pushed on the undo stack is taken *after* the write, so a following
`undo()` restores the post-edit snapshot, not the snapshot the column held
before the edit.  Concretely: a model over one element with profile `[5]`,
edited to `7` via `setData(0, 0, 7)` and then undone, still holds `[7]` and
not the pre-edit `[5]`. -/
theorem profilesmodel_undo_restores_post_edit_snapshot :
    (((ProfilesModel.init [[(5 : ℚ)]] 100).setData 0 0 7).undo).profiles = [[7]] ∧
    (((ProfilesModel.init [[(5 : ℚ)]] 100).setData 0 0 7).undo).profiles ≠ [[5]] := by
  decide

/-- C2 (counterexample): the undo stack is *not* bounded by the configured
maximum.  With `max_undo_states = 0`, two `add_state` calls leave the stack
at length 2 > 0. -/
theorem objecthistory_stack_exceeds_configured_maximum :
    (ObjectHistory.init 0).max_undo_states = 0 ∧
    (((ObjectHistory.init 0).add_state "a" []).add_state "b" []).undo_stack.length = 2 := by
  decide

/-- C2 (amended): for every configured maximum and every sequence of
`add_state` calls starting from a fresh `ObjectHistory`, the undo stack
length never exceeds `max_undo_states + 2`, and whenever the length already
exceeds `max_undo_states + 1` a further `add_state` evicts the oldest entry
(the stack becomes its tail plus the new entry). -/
theorem objecthistory_stack_bounded_with_slack
    (maxStates : Nat) (calls : List (String × HistData))
    (h : ObjectHistory) (a : String) (d : HistData) :
    (calls.foldl (fun acc c => acc.add_state c.1 c.2)
        (ObjectHistory.init maxStates)).undo_stack.length ≤ maxStates + 2 ∧
    (h.undo_stack.length > h.max_undo_states + 1 →
      (h.add_state a d).undo_stack = h.undo_stack.tail ++ [(a, d)]) := by
  constructor
  · have hb := ObjectHistory.foldl_add_state_length_le calls (ObjectHistory.init maxStates)
      (by simp [ObjectHistory.init])
    rwa [ObjectHistory.foldl_add_state_max_eq calls (ObjectHistory.init maxStates)] at hb
  · intro hgt
    unfold ObjectHistory.add_state
    simp [hgt]

/-- C2 (witness): the amended theorem instantiated at a concrete history with
three stacked entries and configured maximum 0, discharging the eviction
hypothesis at that input. -/
theorem objecthistory_stack_bounded_with_slack_witness :
    (([("a", ([] : HistData)), ("b", []), ("c", [])].foldl
        (fun acc c => acc.add_state c.1 c.2)
        (ObjectHistory.init 0)).undo_stack.length ≤ 0 + 2) ∧
    ((ObjectHistory.mk 0 0 [("a", []), ("b", []), ("c", [])] []).add_state "x" []).undo_stack
      = (ObjectHistory.mk 0 0 [("a", []), ("b", []), ("c", [])] []).undo_stack.tail
          ++ [("x", [])] :=
  ⟨(objecthistory_stack_bounded_with_slack 0
      [("a", []), ("b", []), ("c", [])]
      (ObjectHistory.mk 0 0 [("a", []), ("b", []), ("c", [])] []) "x" []).1,
   (objecthistory_stack_bounded_with_slack 0 []
      (ObjectHistory.mk 0 0 [("a", []), ("b", []), ("c", [])] []) "x" []).2 (by decide)⟩

/-! ## Claim C3 -/

/-- `String.join` distributes over `cons`. -/
theorem string_join_cons (s : String) (l : List String) :
    String.join (s :: l) = s ++ String.join l := by
  apply String.ext
  simp [String.join_eq, String.data_append]

/-- Accumulating `if p x then txt ++ f x else txt` over a list equals the
start string followed by the joined images of the filtered list. -/
theorem foldl_ite_append_eq_join_filter {α : Type} (p : α → Prop) [DecidablePred p]
    (f : α → String) (l : List α) :
    ∀ s : String,
      l.foldl (fun txt x => if p x then txt ++ f x else txt) s =
        s ++ String.join ((l.filter (fun x => p x)).map f) := by
  induction l with
  | nil =>
      intro s
      simp [String.join, String.append_empty]
  | cons a t ih =>
      intro s
      by_cases h : p a
      · simp [List.filter_cons, h, ih (s ++ f a), string_join_cons, String.append_assoc]
      · simp [List.filter_cons, h, ih s]

/-- C3 (counterexample): clipboard export does not produce one row per index
entry.  With one column `a`, one index entry `x` and the single cell value
`0`, the produced text is just the header row; the data row for `x` mandated
by the claim is missing. -/
theorem fast_data_to_text_drops_zero_sum_rows :
    fast_data_to_text [[(0 : ℚ)]] ["a"] ["x"] = "\ta\n" ∧
    fast_data_to_text [[(0 : ℚ)]] ["a"] ["x"] ≠
      "\ta\n" ++ ("x" ++ "\t" ++ pyStr 0 ++ "\n") := by
  have he : fast_data_to_text [[(0 : ℚ)]] ["a"] ["x"] = "\ta\n" := by
    norm_num [fast_data_to_text]
    decide
  refine ⟨he, ?_⟩
  rw [he]
  have h0 : pyStr 0 = "0" := rfl
  rw [h0]
  decide

/-- C3 (amended): `fast_data_to_text` and `ResultsModel.copy_to_clipboard`
produce tab-separated text consisting of exactly one header row followed by
one row per index entry *whose cell values do not sum to zero* (rows summing
to `0.0` are omitted), each retained data row being the index value and the
row's cell values joined by tabs, whenever the table has at least one
column; `PandasModel.copy_to_clipboard`, by contrast, converts the data to
strings before the zero-sum guard, so the guard's string-dtype sum raises
`TypeError`: with at least one column and at least one index entry that
export path produces no text at all, and with no index entries it copies the
bare header row. -/
theorem clipboard_export_amended
    (data : List (List ℚ)) (columns index : List String) (t : ResultsTable)
    (gd pgdA pgdB : List String × List String × List (List ℚ))
    (pm : PandasModel)
    (hc : t.cols_c.length > 0) :
    fast_data_to_text data columns index = clipboard_text_amended data columns index ∧
    ResultsModel.copy_to_clipboard t gd =
      some (fast_data_to_text gd.2.2 gd.2.1 gd.1) ∧
    (pm.cols_c.length > 0 → pgdA.1 ≠ [] → pgdA.1.length ≤ pgdA.2.2.length →
      pm.copy_to_clipboard pgdA = none) ∧
    (pm.cols_c.length > 0 → pgdB.1 = [] →
      pm.copy_to_clipboard pgdB =
        some (some ("\t" ++ String.intercalate "\t" pgdB.2.1 ++ "\n"))) := by
  refine ⟨?_, ?_, ?_, ?_⟩
  · exact foldl_ite_append_eq_join_filter _ _ (index.zip data) _
  · simp [ResultsModel.copy_to_clipboard, hc]
  · intro hpc hne hlen
    obtain ⟨iv, rest, hidx⟩ : ∃ iv rest, pgdA.1 = iv :: rest := by
      cases hi : pgdA.1 with
      | nil => exact absurd hi hne
      | cons iv rest => exact ⟨iv, rest, rfl⟩
    cases hd : pgdA.2.2 with
    | nil =>
        rw [hidx, hd] at hlen
        simp at hlen
    | cons r0 drest =>
        simp [PandasModel.copy_to_clipboard, hpc, hidx, hd,
          pandas_clipboard_rows, numpy_str_sum]
  · intro hpc hempty
    simp [PandasModel.copy_to_clipboard, hpc, hempty, pandas_clipboard_rows]

/-- C3 (witness): the amended theorem applied to a concrete two-row results
table in which the second row sums to zero, and to a concrete two-column
pandas model with a two-entry index (export raises) and an empty index
(export is the bare header). -/
theorem clipboard_export_amended_witness :
    (fast_data_to_text [[(1 : ℚ)], [0]] ["a"] ["x", "y"] =
      clipboard_text_amended [[(1 : ℚ)], [0]] ["a"] ["x", "y"]) ∧
    ResultsModel.copy_to_clipboard
        (ResultsTable.mk [[PyValue.num 1], [PyValue.num 0]] ["a"] ["x", "y"] ".6f" 2 1)
        (["x", "y"], ["a"], [[(1 : ℚ)], [0]]) =
      some (fast_data_to_text [[(1 : ℚ)], [0]] ["a"] ["x", "y"]) ∧
    pandasFixture.copy_to_clipboard
        (["x", "y"], ["a", "b"], [[(1 : ℚ), 2], [0, 0]]) = none ∧
    pandasFixture.copy_to_clipboard ([], ["a", "b"], []) =
      some (some ("\t" ++ String.intercalate "\t" ["a", "b"] ++ "\n")) := by
  have h := clipboard_export_amended [[(1 : ℚ)], [0]] ["a"] ["x", "y"]
    (ResultsTable.mk [[PyValue.num 1], [PyValue.num 0]] ["a"] ["x", "y"] ".6f" 2 1)
    (["x", "y"], ["a"], [[(1 : ℚ)], [0]])
    (["x", "y"], ["a", "b"], [[(1 : ℚ), 2], [0, 0]])
    ([], ["a", "b"], [])
    pandasFixture (by decide)
  exact ⟨h.1, h.2.1,
    h.2.2.1 (by decide) (by decide) (by decide),
    h.2.2.2 (by decide) rfl⟩

/-! ## Claim C4 -/

/-- C4: cancellation is never honored.  `cancel()` only sets the internal
flag, and `run()` never reads it, so the emitted event sequence and the final
circuit, logger and `valid` flag of both `FileOpenThread.run` and
`FileSaveThread.run` are identical whether or not `cancel()` was called
beforehand. -/
theorem cancel_flag_never_honored {C : Type} (t : FileOpenThread C)
    (engine : EngineOpen C) (s : FileSaveThread C) (es : EngineSave) :
    ((t.cancel).run engine).map openOutcome = (t.run engine).map openOutcome ∧
    saveOutcome ((s.cancel).run es) = saveOutcome (s.run es) := by
  constructor
  · cases hl : loading_fname t.file_name <;>
      simp [FileOpenThread.run, FileOpenThread.cancel, openOutcome, hl]
  · rfl

/-! ## Claim C6 -/

/-- C6: every completed invocation of `run()` on either worker thread emits
exactly one completion event, as the final event after all progress events,
and stores the engine's accumulated error log in `self.logger` (no error
event exists to be emitted). -/
theorem run_emits_single_completion_last {C : Type}
    (t : FileOpenThread C) (engine : EngineOpen C) (st : FileOpenThread C)
    (evs : List Event) (s : FileSaveThread C) (es : EngineSave)
    (h : t.run engine = some (st, evs)) :
    (∃ ps : List ProgressEvent, evs = ps.map Event.progress ++ [Event.done]) ∧
    st.logger = engine.logger ∧ st.valid = true ∧
    (∃ qs : List ProgressEvent,
        (s.run es).2 = qs.map Event.progress ++ [Event.done]) ∧
    (s.run es).1.logger = es.logger ∧ (s.run es).1.valid = true := by
  cases hl : loading_fname t.file_name with
  | none => simp [FileOpenThread.run, hl] at h
  | some fname =>
      simp only [FileOpenThread.run, hl] at h
      obtain ⟨hst, hevs⟩ := Prod.mk.injEq .. ▸ Option.some.injEq .. ▸ h
      refine ⟨⟨ProgressEvent.text ("Loading " ++ fname ++ "...")
                :: engine.events ++ [ProgressEvent.text "Done!"], ?_⟩,
              ?_, ?_,
              ⟨ProgressEvent.text ("Flushing " ++ os_path_split_tail s.file_name
                  ++ " into " ++ os_path_split_tail s.file_name ++ "...")
                :: es.events ++ [ProgressEvent.text "Done!"], ?_⟩,
              rfl, rfl⟩
      · rw [← hevs]; simp
      · rw [← hst]
      · rw [← hst]
      · simp [FileSaveThread.run]

/-- C6 (witness): the theorem applied to a concrete open thread on path
`d/f.gridcal` with a silent engine, and a concrete save thread. -/
theorem run_emits_single_completion_last_witness :
    (∃ ps : List ProgressEvent,
        [Event.progress (ProgressEvent.text "Loading f.gridcal..."),
         Event.progress (ProgressEvent.text "Done!"), Event.done] =
          ps.map Event.progress ++ [Event.done]) ∧
    (FileOpenThread.mk (Sum.inl "d/f.gridcal") true [] (some ()) false :
        FileOpenThread Unit).logger = (EngineOpen.mk [] () [] : EngineOpen Unit).logger ∧
    (FileOpenThread.mk (Sum.inl "d/f.gridcal") true [] (some ()) false :
        FileOpenThread Unit).valid = true ∧
    (∃ qs : List ProgressEvent,
        ((FileSaveThread.init () "g.x").run (EngineSave.mk [] [])).2 =
          qs.map Event.progress ++ [Event.done]) ∧
    ((FileSaveThread.init () "g.x").run (EngineSave.mk [] [])).1.logger =
      (EngineSave.mk [] []).logger ∧
    ((FileSaveThread.init () "g.x").run (EngineSave.mk [] [])).1.valid = true :=
  run_emits_single_completion_last
    (FileOpenThread.init (Sum.inl "d/f.gridcal"))
    (EngineOpen.mk [] () [])
    (FileOpenThread.mk (Sum.inl "d/f.gridcal") true [] (some ()) false)
    [Event.progress (ProgressEvent.text "Loading f.gridcal..."),
     Event.progress (ProgressEvent.text "Done!"), Event.done]
    (FileSaveThread.init () "g.x")
    (EngineSave.mk [] [])
    rfl

/-! ## Claim C7 -/

/-- C7: every table-model adapter reports `rowCount`/`columnCount` equal to
the size of its underlying collection: `PandasModel` the data frame's row
and column counts, `ObjectsModel` the number of objects and of attributes
(swapped when transposed), `WiresTable` the number of wires and of header
entries. -/
theorem adapter_counts_match_collections {V : Type}
    (df : DataFrame) (editable : Bool) (emin : Int) (decimals : Nat)
    (attributes : List String) (tys : List AttrType) (objects : List (AssocObj V))
    (oe : Bool) (ne cu : List String) (bc : V → V) (wt : WiresTable) :
    (PandasModel.init df editable emin decimals).rowCount = df.index.length ∧
    (PandasModel.init df editable emin decimals).columnCount = df.columns.length ∧
    (ObjectsModel.init attributes tys objects oe ne false cu bc).rowCount
      = objects.length ∧
    (ObjectsModel.init attributes tys objects oe ne false cu bc).columnCount
      = attributes.length ∧
    (ObjectsModel.init attributes tys objects oe ne true cu bc).rowCount
      = attributes.length ∧
    (ObjectsModel.init attributes tys objects oe ne true cu bc).columnCount
      = objects.length ∧
    wt.rowCount = wt.wires.length ∧
    wt.columnCount = WiresTable.header.length :=
  ⟨rfl, rfl, rfl, rfl, rfl, rfl, rfl, rfl⟩

/-! ## Claim C10 -/

/-- C10: `MeasurementsModel.__init__` stores only the circuit and never
assigns the `items` attribute, so `rowCount()` always fails (and so does
`data()` at any valid index and display role): both reads of the unset
attribute yield the `AttributeError` value `none`. -/
theorem measurementsmodel_reads_always_fail {C M : Type} (c : C) (row : Nat)
    (render : M → String) :
    (MeasurementsModel.init c : MeasurementsModel C M).rowCount = none ∧
    (MeasurementsModel.init c : MeasurementsModel C M).data row true
      QtRole.display render = none := by
  exact ⟨rfl, rfl⟩

/-! ## Claim C8 -/

/-- C8: at a valid index and display role, both `PandasModel.data` and
`ResultsModel.data` render a zero numeric cell (zero real, or complex with
zero real and imaginary parts) as the literal string `'0'`, and render any
non-zero numeric cell through the model's format string. -/
theorem zero_cells_render_literal_zero
    (m : PandasModel) (t : ResultsTable)
    (fmt : String → ℚ → String) (fmtc : String → ℚ → ℚ → String)
    (r0 c0 r1 c1 r2 c2 r3 c3 : Nat) (q re im : ℚ)
    (hm0 : m.data_c[r0]?.bind (fun rw => rw[c0]?) = some (PyValue.num 0))
    (hm1 : m.data_c[r1]?.bind (fun rw => rw[c1]?) = some (PyValue.cplx 0 0))
    (hm2 : m.data_c[r2]?.bind (fun rw => rw[c2]?) = some (PyValue.num q))
    (hm3 : m.data_c[r3]?.bind (fun rw => rw[c3]?) = some (PyValue.cplx re im))
    (ht0 : t.data_c[r0]?.bind (fun rw => rw[c0]?) = some (PyValue.num 0))
    (ht1 : t.data_c[r1]?.bind (fun rw => rw[c1]?) = some (PyValue.cplx 0 0))
    (ht2 : t.data_c[r2]?.bind (fun rw => rw[c2]?) = some (PyValue.num q))
    (ht3 : t.data_c[r3]?.bind (fun rw => rw[c3]?) = some (PyValue.cplx re im))
    (hq : q ≠ 0) (hri : re ≠ 0 ∨ im ≠ 0) :
    m.dataAt fmt fmtc r0 c0 true QtRole.display = some "0" ∧
    m.dataAt fmt fmtc r1 c1 true QtRole.display = some "0" ∧
    m.dataAt fmt fmtc r2 c2 true QtRole.display = some (fmt m.format_string q) ∧
    m.dataAt fmt fmtc r3 c3 true QtRole.display = some (fmtc m.format_string re im) ∧
    ResultsModel.dataAt t fmt fmtc r0 c0 true QtRole.display = some "0" ∧
    ResultsModel.dataAt t fmt fmtc r1 c1 true QtRole.display = some "0" ∧
    ResultsModel.dataAt t fmt fmtc r2 c2 true QtRole.display = some (fmt t.format_string q) ∧
    ResultsModel.dataAt t fmt fmtc r3 c3 true QtRole.display
      = some (fmtc t.format_string re im) := by
  refine ⟨?_, ?_, ?_, ?_, ?_, ?_, ?_, ?_⟩ <;>
    simp [PandasModel.dataAt, ResultsModel.dataAt, renderVal,
      hm0, hm1, hm2, hm3, ht0, ht1, ht2, ht3, hq, hri]

/-- C8 (witness): the rendering theorem applied to concrete 2x2 models with
a zero cell, a zero complex cell, the value 2 and the complex value 3. -/
theorem zero_cells_render_literal_zero_witness :
    pandasFixture.dataAt fmtFixture fmtcFixture 0 0 true QtRole.display = some "0" ∧
    pandasFixture.dataAt fmtFixture fmtcFixture 1 0 true QtRole.display = some "0" ∧
    pandasFixture.dataAt fmtFixture fmtcFixture 0 1 true QtRole.display
      = some (fmtFixture pandasFixture.format_string 2) ∧
    pandasFixture.dataAt fmtFixture fmtcFixture 1 1 true QtRole.display
      = some (fmtcFixture pandasFixture.format_string 3 0) ∧
    ResultsModel.dataAt resultsFixture fmtFixture fmtcFixture 0 0 true QtRole.display
      = some "0" ∧
    ResultsModel.dataAt resultsFixture fmtFixture fmtcFixture 1 0 true QtRole.display
      = some "0" ∧
    ResultsModel.dataAt resultsFixture fmtFixture fmtcFixture 0 1 true QtRole.display
      = some (fmtFixture resultsFixture.format_string 2) ∧
    ResultsModel.dataAt resultsFixture fmtFixture fmtcFixture 1 1 true QtRole.display
      = some (fmtcFixture resultsFixture.format_string 3 0) :=
  zero_cells_render_literal_zero pandasFixture resultsFixture fmtFixture fmtcFixture
    0 0 1 0 0 1 1 1 2 3 0
    rfl rfl rfl rfl rfl rfl rfl rfl (by decide) (Or.inl (by decide))

/-! ## Claim C5 -/

/-- Looking up the attribute just written by `setattrObj` returns the
written value. -/
theorem getattrOpt_setattrObj_self {V : Type} (o : AssocObj V) (a : String) (v : V) :
    getattrOpt (setattrObj o a v) a = some v := by
  induction o with
  | nil => simp [setattrObj, getattrOpt]
  | cons p t ih =>
      by_cases h : p.1 = a
      · simp [setattrObj, getattrOpt, h]
      · simp [setattrObj, getattrOpt, h, ih]

/-- C5 (counterexample): `WiresTable.setData` accepts a duplicate name.  In
a table with wires named `a` and `b`, editing wire 0's name to the taken
value `b` is *not* rejected: the edit is written and both wires end up named
`b`, because the `is_used` uniqueness guard only runs when the edited
attribute is the literal `'tower_name'`, which no column maps to. -/
theorem wirestable_setdata_accepts_duplicate_name :
    wiresFixture.is_used "b" = true ∧
    (wiresFixture.setData 0 0 "b" noFloat).map (fun t => t.wires.map Wire.name)
      = some ["b", "b"] := by
  decide

/-- C5 (amended): `ObjectsModel.setData` rejects an edit whose value is
already held by some object whenever the edited attribute is under a
uniqueness check, leaving the model unchanged, and writes a value that is
not taken into the addressed object's attribute provided the attribute is
also editable; `WiresTable.setData`, however, performs no uniqueness check
on any of its columns (its guard compares the attribute to `'tower_name'`,
which no column maps to), so a name edit is always written, taken or not. -/
theorem setdata_unique_names_amended {V : Type} [DecidableEq V]
    (m : ObjectsModel V) (row col : Nat) (valueTaken valueFree : V)
    (wt : WiresTable) (wrow : Nat) (wvalue : String) (fc : String → Option ℚ) :
    ((m.attributes.getD (if m.transposed then row else col) "") ∈ m.check_unique →
      m.attr_taken (m.attributes.getD (if m.transposed then row else col) "")
          valueTaken = true →
      m.setData row col valueTaken = m) ∧
    (m.attr_taken (m.attributes.getD (if m.transposed then row else col) "")
        valueFree = false →
      (m.attributes.getD (if m.transposed then row else col) "")
          ∉ m.non_editable_attributes →
      (if m.transposed then col else row) < m.objects.length →
      m.attribute_types.getD (if m.transposed then row else col) AttrType.other
          ≠ AttrType.branchType →
      getattrOpt
          ((m.setData row col valueFree).objects.getD
            (if m.transposed then col else row) [])
          (m.attributes.getD (if m.transposed then row else col) "")
        = some valueFree) ∧
    (wrow < wt.wires.length →
      (wt.setData wrow 0 wvalue fc).map
          (fun t => (t.wires.map Wire.name).getD wrow "") = some wvalue) := by
  refine ⟨?_, ?_, ?_⟩
  · intro h1 h2
    simp only [List.getD, List.get?_eq_getElem?] at h1 h2
    simp [ObjectsModel.setData, List.getD, h1, h2]
  · intro h2 h3 h4 h5
    simp only [List.getD, List.get?_eq_getElem?] at h2 h3 h5
    have hset : ∀ o : AssocObj V,
        (m.objects.set (if m.transposed then col else row) o)[
          (if m.transposed then col else row)]? = some o :=
      fun o => List.getElem?_set_self h4
    by_cases hmem : m.attributes[if m.transposed then row else col]?.getD ""
        ∈ m.check_unique
    · simp [ObjectsModel.setData, List.getD, hmem, h2, h3, h5, hset,
        getattrOpt_setattrObj_self]
    · simp [ObjectsModel.setData, List.getD, hmem, h2, h3, h5, hset,
        getattrOpt_setattrObj_self]
  · intro h6
    have hw : wt.wires[wrow]? = some wt.wires[wrow] := List.getElem?_eq_getElem h6
    have hname : ¬(("name" : String) = "tower_name") := by decide
    simp only [WiresTable.setData, WiresTable.editable, WiresTable.index_prop,
      List.getD, hw]
    norm_num [hname]
    rw [List.getElem?_set_self h6]
    simp

/-- C5 (witness): the amended theorem at a concrete model holding names `a`
and `b`: writing the taken name `b` onto object 0 is rejected, writing the
fresh name `c` succeeds, and the wires table writes the duplicate-free name
`z` unconditionally. -/
theorem setdata_unique_names_amended_witness :
    objFixture.setData 0 0 "b" = objFixture ∧
    getattrOpt ((objFixture.setData 0 0 "c").objects.getD 0 []) "name" = some "c" ∧
    (wiresFixture.setData 0 0 "z" noFloat).map
        (fun t => (t.wires.map Wire.name).getD 0 "") = some "z" :=
  ⟨(setdata_unique_names_amended objFixture 0 0 "b" "c" wiresFixture 0 "z" noFloat).1
      (by decide) (by decide),
   (setdata_unique_names_amended objFixture 0 0 "b" "c" wiresFixture 0 "z" noFloat).2.1
      (by decide) (by decide) (by decide) (by decide),
   (setdata_unique_names_amended objFixture 0 0 "b" "c" wiresFixture 0 "z" noFloat).2.2
      (by decide)⟩

/-! ## Claim C9 -/

/-- C9 (counterexample): a wire's phase is *not* always in `[0, 3]` after an
edit.  In a tower whose single wire already stores phase `7`, editing that
wire's `xpos` (column 1) leaves the phase at `7`, outside `[0, 3]`: the
range correction only applies to the edited `'phase'` attribute itself. -/
theorem towermodel_phase_not_in_range_after_edit :
    (TowerModel.setData towerFixture 0 1 "1.0").map towerPhase0 = some 7 ∧
    ¬((0 : ℚ) ≤ 7 ∧ (7 : ℚ) ≤ 3) := by
  constructor
  · rfl
  · intro hc
    exact absurd hc.2 (by norm_num)

/-- C9 (amended): `TowerModel.setData` on an editable column with a valid
row stores a total, range-corrected value: a value the column's converter
cannot parse is stored as `0`, and an edit of the `'phase'` attribute always
leaves the edited wire's phase in `[0, 3]`; attributes other than the edited
one, and wires other than the edited one, keep their previous values
(including phases already outside `[0, 3]`). -/
theorem towermodel_setdata_total_and_phase_clamped
    (tw : Tower) (row col : Nat) (value : String) (attr : String)
    (hed : tw.editable_wire.getD col false = true)
    (hrow : row < tw.wires_in_tower.length)
    (hattr : tw.index_prop col = some attr) :
    ∃ tw', TowerModel.setData tw row col value = some tw' ∧
      (tw.converter col value = none → (towerWireAt tw' row).attrs attr = 0) ∧
      (attr = "phase" →
        0 ≤ (towerWireAt tw' row).attrs "phase" ∧
        (towerWireAt tw' row).attrs "phase" ≤ 3) ∧
      (∀ a : String, a ≠ attr →
        (towerWireAt tw' row).attrs a = (towerWireAt tw row).attrs a) ∧
      (∀ i : Nat, i ≠ row → tw'.wires_in_tower[i]? = tw.wires_in_tower[i]?) := by
  have hw : tw.wires_in_tower[row]? = some tw.wires_in_tower[row] :=
    List.getElem?_eq_getElem hrow
  refine ⟨Tower.mk tw.header tw.index_prop tw.converter tw.editable_wire
      (tw.wires_in_tower.set row (TWire.mk (fun a =>
        if a = attr then
          (if attr = "phase" ∧ ((tw.converter col value).getD 0 < 0 ∨
                (tw.converter col value).getD 0 > 3)
           then 0 else (tw.converter col value).getD 0)
        else tw.wires_in_tower[row].attrs a))), ?_, ?_, ?_, ?_, ?_⟩
  · simp only [TowerModel.setData, hed, hw, hattr, if_true]
  · intro hc
    simp only [towerWireAt, List.getD, List.get?_eq_getElem?,
      List.getElem?_set_self hrow, Option.getD_some, hc, Option.getD_none]
    simp [ite_self]
  · intro hp
    subst hp
    simp only [towerWireAt, List.getD, List.get?_eq_getElem?,
      List.getElem?_set_self hrow, Option.getD_some, eq_self_iff_true, if_true,
      true_and]
    by_cases hout : ((tw.converter col value).getD 0 < 0 ∨
        (tw.converter col value).getD 0 > 3)
    · rw [if_pos hout]
      norm_num
    · rw [if_neg hout]
      exact ⟨le_of_not_lt (fun hlt => hout (Or.inl hlt)),
             le_of_not_lt (fun hlt => hout (Or.inr hlt))⟩
  · intro a ha
    simp only [towerWireAt, List.getD, List.get?_eq_getElem?,
      List.getElem?_set_self hrow, Option.getD_some, hw, if_neg ha]
  · intro i hi
    exact List.getElem?_set_ne (Ne.symm hi)

/-- C9 (witness): the amended theorem at `towerFixture`, editing the phase
column with an unparsable value: the edit succeeds, the stored phase is `0`
and lies in `[0, 3]`, and unedited attributes and wires are untouched. -/
theorem towermodel_setdata_total_and_phase_clamped_witness :
    ∃ tw', TowerModel.setData towerFixture 0 3 "junk" = some tw' ∧
      (towerFixture.converter 3 "junk" = none →
        (towerWireAt tw' 0).attrs "phase" = 0) ∧
      (("phase" : String) = "phase" →
        0 ≤ (towerWireAt tw' 0).attrs "phase" ∧
        (towerWireAt tw' 0).attrs "phase" ≤ 3) ∧
      (∀ a : String, a ≠ "phase" →
        (towerWireAt tw' 0).attrs a = (towerWireAt towerFixture 0).attrs a) ∧
      (∀ i : Nat, i ≠ 0 →
        tw'.wires_in_tower[i]? = towerFixture.wires_in_tower[i]?) :=
  towermodel_setdata_total_and_phase_clamped towerFixture 0 3 "junk" "phase"
    (by decide) (by decide) rfl

end GridCalVer
